import Mathlib

/-!
Verification of the bsdiff4 patch-container codec (`src/bsdiff4/format.py`).

The Python source is shallowly embedded below.  Bytes are modelled as
`List Nat` (a Python `bytes` object is a sequence of values `0..255`; none of
the statements proved here depend on the upper bound).  Python exceptions are
modelled with an explicit error type and `Except`.

External collaborators of the codec are treated as follows:

* `core.encode_int64` / `core.decode_int64` (the C extension, not part of the
  Python source under `src/`) are modelled from the spec, which fixes their
  interface to an 8-byte encoding of a signed 64-bit integer.  The concrete
  encoding used is the classic bsdiff sign-magnitude little-endian layout
  (low 7 magnitude bytes, then the top magnitude bits plus a sign bit in the
  high bit of byte 7); the real extension rejects inputs that are not exactly
  8 bytes long with `ValueError("8 bytes expected")`, which is modelled by the
  `valueErrorDecodeInt` error.
* `bz2.compress` and `brotli.decompress` are external libraries; they are
  passed in as explicit function parameters, so every theorem quantifies over
  their behaviour.
* `core.diff` and `core.patch` (the external diff/patch engine) are likewise
  parameters.
-/

set_option maxRecDepth 4000

namespace Bsdiff4

/-- A Python `bytes` value, one `Nat` per byte. -/
abbrev Bytes := List Nat

/-- The Python exceptions that the code in `format.py` can raise.

* `valueErrorNotAPatch` — `ValueError("Not a BSDIFF4 patch")`, format.py line 84.
* `valueErrorBadEnum n` — the `ValueError` raised by the `CompressionType`
  enum constructor when `n` is not the value of any member (lines 72-74).
* `valueErrorUnknownCompression` — `ValueError("Unknown compression type")`,
  line 45 of `create_bsdf2_decompressor`; unreachable from `read_patch`
  because the enum constructor has already validated the byte.
* `valueErrorDecodeInt` — `ValueError("8 bytes expected")` raised by
  `core.decode_int64` on input that is not exactly 8 bytes (modelled from the
  spec's integer-codec interface).
* `indexError` — `magic[k]` on a `bytes` object shorter than `k+1`.
* `attributeError` — attribute lookup `.decompress` on a plain function
  object (the `lambda x: x` returned for `NoCompression` has no such
  attribute).
* `typeError` — `bz2.BZ2Decompressor.decompress(data)`: calling the unbound
  method of the *class* with `data` in the `self` slot.
* `brotliError` — an error raised by `brotli.decompress` on invalid input.
-/
inductive PyErr where
  | valueErrorNotAPatch
  | valueErrorBadEnum (n : Nat)
  | valueErrorUnknownCompression
  | valueErrorDecodeInt
  | indexError
  | attributeError
  | typeError
  | brotliError
  deriving DecidableEq, Repr

/-- `BSDIFF_MAGIC = b"BSDIFF40"` (format.py line 15). -/
def BSDIFF_MAGIC : Bytes := [66, 83, 68, 73, 70, 70, 52, 48]

/-- `BSDF2_MAGIC = b"BSDF2"` (format.py line 22). -/
def BSDF2_MAGIC : Bytes := [66, 83, 68, 70, 50]

/-- The `CompressionType` enum (format.py lines 29-34). -/
inductive CompressionType where
  | NoCompression
  | BZ2
  | Brotli
  deriving DecidableEq, Repr

/-- The enum value lookup `CompressionType(n)`: member values are
`NoCompression = 0`, `BZ2 = 1`, `Brotli = 2`; any other argument raises
`ValueError` (Python enum semantics for `CompressionType(magic[k])`). -/
def CompressionType.ofByte (n : Nat) : Except PyErr CompressionType :=
  if n = 0 then .ok .NoCompression
  else if n = 1 then .ok .BZ2
  else if n = 2 then .ok .Brotli
  else .error (.valueErrorBadEnum n)

/-- The three Python objects that `create_bsdf2_decompressor` can return
(format.py lines 37-45):

* `identityFn` — the function object `lambda x: x`;
* `bz2Class` — the class object `bz2.BZ2Decompressor` (not an instance);
* `brotliModule` — the module object `brotli`.
-/
inductive Decompressor where
  | identityFn
  | bz2Class
  | brotliModule
  deriving DecidableEq, Repr

/-- `create_bsdf2_decompressor` (format.py lines 37-45).  The trailing
`else: raise ValueError("Unknown compression type")` is unreachable here:
in Lean the argument ranges over the closed enum, exactly as at the Python
call sites, where the argument is always a valid `CompressionType` member. -/
def create_bsdf2_decompressor : CompressionType → Decompressor
  | .NoCompression => .identityFn
  | .BZ2 => .bz2Class
  | .Brotli => .brotliModule

/-- The method call `d.decompress(data)` performed by `read_patch`
(format.py lines 91, 103, 104), for each object `d` that can reach it:

* `lambda x: x` — a function object has no attribute `decompress`, so the
  lookup raises `AttributeError`;
* `bz2.BZ2Decompressor` — `BZ2Decompressor.decompress(data)` calls the
  descriptor with `data` as `self`, which is not a `BZ2Decompressor`
  instance, so Python raises `TypeError`;
* the `brotli` module — `brotli.decompress(data)` is a real one-shot
  decompression, modelled by the explicit parameter `br`.
-/
def Decompressor.decompress (d : Decompressor) (br : Bytes → Except PyErr Bytes)
    (data : Bytes) : Except PyErr Bytes :=
  match d with
  | .identityFn => .error .attributeError
  | .bz2Class => .error .typeError
  | .brotliModule => br data

/-- `fi.read(n)` on a `BytesIO`-style stream: returns up to `n` bytes and the
remaining stream; a negative `n` reads everything to EOF. -/
def pyRead (n : Int) (s : Bytes) : Bytes × Bytes :=
  if n < 0 then (s, []) else (s.take n.toNat, s.drop n.toNat)

/-- `b[i]` on a Python `bytes` object: the byte value, or `IndexError`. -/
def pyIndex (b : Bytes) (i : Nat) : Except PyErr Nat :=
  match b.get? i with
  | some v => .ok v
  | none => .error .indexError

/-- The slice `b[i:j]` (for `0 ≤ i ≤ j`): clamped, never raising. -/
def pySlice (b : Bytes) (i j : Nat) : Bytes :=
  (b.drop i).take (j - i)

/-- Modelled from the spec: `core.encode_int64` of the C extension (not under
`src/`), the spec's `encodeInt64(n: int64) -> 8 bytes`.  Classic bsdiff
sign-magnitude layout: bytes 0-6 are the low 7 bytes of the magnitude,
byte 7 holds the remaining magnitude bits plus `0x80` if the value is
negative. -/
def encode_int64 (x : Int) : Bytes :=
  [x.natAbs % 256, x.natAbs / 256 % 256, x.natAbs / 65536 % 256,
   x.natAbs / 16777216 % 256, x.natAbs / 4294967296 % 256,
   x.natAbs / 1099511627776 % 256, x.natAbs / 281474976710656 % 256,
   x.natAbs / 72057594037927936 % 128 + if x < 0 then 128 else 0]

/-- Modelled from the spec: `core.decode_int64` of the C extension (not under
`src/`), the spec's `decodeInt64(bytes8) -> int64`.  The real extension
validates its input length and raises `ValueError("8 bytes expected")`
otherwise; on 8 bytes it is the inverse of `encode_int64`. -/
def decode_int64 (bs : Bytes) : Except PyErr Int :=
  match bs with
  | [b0, b1, b2, b3, b4, b5, b6, b7] =>
    .ok (if 128 ≤ b7 then
      -((b0 + 256 * b1 + 65536 * b2 + 16777216 * b3 + 4294967296 * b4 +
         1099511627776 * b5 + 281474976710656 * b6 +
         72057594037927936 * (b7 % 128) : Nat) : Int)
    else
      ((b0 + 256 * b1 + 65536 * b2 + 16777216 * b3 + 4294967296 * b4 +
        1099511627776 * b5 + 281474976710656 * b6 +
        72057594037927936 * (b7 % 128) : Nat) : Int))
  | _ => .error .valueErrorDecodeInt

/-- A control tuple: three signed 64-bit integers. -/
abbrev ControlTuple := Int × Int × Int

/-- The `faux` buffer built by `write_patch` (format.py lines 51-55): the
control tuples flattened in order, each component through
`core.encode_int64`. -/
def control_block (tcontrol : List ControlTuple) : Bytes :=
  tcontrol.foldl
    (fun acc c => acc ++ encode_int64 c.1 ++ encode_int64 c.2.1 ++ encode_int64 c.2.2)
    []

/-- `write_patch` (format.py lines 48-64), with the stream `fo` modelled as
the returned byte list and `bz2.compress` as the parameter `bz2_compress`. -/
def write_patch (bz2_compress : Bytes → Bytes) (len_dst : Int)
    (tcontrol : List ControlTuple) (bdiff bextra : Bytes) : Bytes :=
  let bcontrol := bz2_compress (control_block tcontrol)
  let bdiff2 := bz2_compress bdiff
  let bextra2 := bz2_compress bextra
  BSDIFF_MAGIC
    ++ encode_int64 (bcontrol.length : Int)
    ++ encode_int64 (bdiff2.length : Int)
    ++ encode_int64 len_dst
    ++ bcontrol ++ bdiff2 ++ bextra2

/-- The branch on `magic` in `read_patch` (format.py lines 71-84):
`magic[:4] == BSDF2_MAGIC[:4]` selects the versioned branch, which resolves
`magic[5]`, `magic[6]`, `magic[7]` through the enum and the registry;
otherwise `magic[:7] == BSDIFF_MAGIC[:7]` selects the legacy branch with
`bz2.BZ2Decompressor` for all three channels; otherwise
`ValueError("Not a BSDIFF4 patch")`. -/
def dispatch_decompressors (magic : Bytes) :
    Except PyErr (Decompressor × Decompressor × Decompressor) :=
  if magic.take 4 = BSDF2_MAGIC.take 4 then do
    let b5 ← pyIndex magic 5
    let t5 ← CompressionType.ofByte b5
    let b6 ← pyIndex magic 6
    let t6 ← CompressionType.ofByte b6
    let b7 ← pyIndex magic 7
    let t7 ← CompressionType.ofByte b7
    pure (create_bsdf2_decompressor t5, create_bsdf2_decompressor t6,
          create_bsdf2_decompressor t7)
  else if magic.take 7 = BSDIFF_MAGIC.take 7 then
    pure (.bz2Class, .bz2Class, .bz2Class)
  else
    .error .valueErrorNotAPatch

/-- One step of the control-tuple list comprehension (format.py lines 92-99):
for each start index `i`, decode the three 8-byte slices
`bcontrol[i:i+8]`, `bcontrol[i+8:i+16]`, `bcontrol[i+16:i+24]`, evaluated in
order with the first exception propagating. -/
def parse_control_go (bcontrol : Bytes) : List Nat → Except PyErr (List ControlTuple)
  | [] => .ok []
  | i :: rest => do
      let a ← decode_int64 (pySlice bcontrol i (i + 8))
      let b ← decode_int64 (pySlice bcontrol (i + 8) (i + 16))
      let c ← decode_int64 (pySlice bcontrol (i + 16) (i + 24))
      let ts ← parse_control_go bcontrol rest
      pure ((a, b, c) :: ts)

/-- The control-tuple list comprehension over `range(0, len(bcontrol), 24)`
(format.py lines 92-99). -/
def parse_control (bcontrol : Bytes) : Except PyErr (List ControlTuple) :=
  parse_control_go bcontrol (List.range' 0 ((bcontrol.length + 23) / 24) 24)

/-- The two shapes returned by `read_patch` (format.py lines 100-105):
`(len_control, len_diff, len_dst, tcontrol)` when `header_only`, and
`(len_dst, tcontrol, bdiff, bextra)` otherwise. -/
inductive ReadPatchResult where
  | header (len_control len_diff len_dst : Int) (tcontrol : List ControlTuple)
  | full (len_dst : Int) (tcontrol : List ControlTuple) (bdiff bextra : Bytes)
  deriving DecidableEq, Repr

/-- `read_patch` (format.py lines 67-105), with the stream `fi` modelled as a
byte list consumed front to back and `brotli.decompress` as the parameter
`br`. -/
def read_patch (br : Bytes → Except PyErr Bytes) (fi : Bytes)
    (header_only : Bool) : Except PyErr ReadPatchResult := do
  let magic := (pyRead 8 fi).1
  let rest0 := (pyRead 8 fi).2
  let dds ← dispatch_decompressors magic
  let len_control ← decode_int64 (pyRead 8 rest0).1
  let rest1 := (pyRead 8 rest0).2
  let len_diff ← decode_int64 (pyRead 8 rest1).1
  let rest2 := (pyRead 8 rest1).2
  let len_dst ← decode_int64 (pyRead 8 rest2).1
  let rest3 := (pyRead 8 rest2).2
  let bcontrol ← dds.1.decompress br (pyRead len_control rest3).1
  let rest4 := (pyRead len_control rest3).2
  let tcontrol ← parse_control bcontrol
  if header_only then
    pure (ReadPatchResult.header len_control len_diff len_dst tcontrol)
  else do
    let bdiff ← dds.2.1.decompress br (pyRead len_diff rest4).1
    let rest5 := (pyRead len_diff rest4).2
    let bextra ← dds.2.2.decompress br rest5
    pure (ReadPatchResult.full len_dst tcontrol bdiff bextra)

/-- `diff` (format.py lines 114-121), with the external engine `core.diff`
as the parameter `core_diff`. -/
def diff (bz2_compress : Bytes → Bytes)
    (core_diff : Bytes → Bytes → List ControlTuple × Bytes × Bytes)
    (src_bytes dst_bytes : Bytes) : Bytes :=
  let r := core_diff src_bytes dst_bytes
  write_patch bz2_compress (dst_bytes.length : Int) r.1 r.2.1 r.2.2

/-- `patch` (format.py lines 136-141), with the external engine `core.patch`
as the parameter `core_patch`, receiving the tuple returned by
`read_patch`. -/
def patch (br : Bytes → Except PyErr Bytes)
    (core_patch : Bytes → ReadPatchResult → Except PyErr Bytes)
    (src_bytes patch_bytes : Bytes) : Except PyErr Bytes := do
  let r ← read_patch br patch_bytes false
  core_patch src_bytes r

/-- `true` exactly on a non-exception result. -/
def exceptIsOk : Except PyErr ReadPatchResult → Bool
  | .ok _ => true
  | .error _ => false

/-- The `(len_dst, tcontrol)` part of a header-only parse, if any. -/
def headerView : Except PyErr ReadPatchResult → Option (Int × List ControlTuple)
  | .ok (.header _ _ len_dst tcontrol) => some (len_dst, tcontrol)
  | _ => none

/-- The `(len_dst, tcontrol)` part of a full parse, if any. -/
def fullView : Except PyErr ReadPatchResult → Option (Int × List ControlTuple)
  | .ok (.full len_dst tcontrol _ _) => some (len_dst, tcontrol)
  | _ => none

/-- `true` exactly when the result is the enum constructor's `ValueError`
for an invalid compression selector byte. -/
def isBadEnumError : Except PyErr ReadPatchResult → Bool
  | .error (.valueErrorBadEnum _) => true
  | _ => false

/-! ### Helper lemmas -/

@[simp]
theorem ebind_ok {α β : Type} (a : α) (f : α → Except PyErr β) :
    (Except.ok a : Except PyErr α) >>= f = f a := rfl

@[simp]
theorem ebind_error {α β : Type} (e : PyErr) (f : α → Except PyErr β) :
    (Except.error e : Except PyErr α) >>= f = Except.error e := rfl

@[simp]
theorem pyRead_natCast (n : Nat) (s : Bytes) :
    pyRead (n : Int) s = (s.take n, s.drop n) := by
  unfold pyRead
  rw [if_neg (by omega : ¬ ((n : Int) < 0))]
  simp

@[simp]
theorem pyRead_eight (s : Bytes) : pyRead 8 s = (s.take 8, s.drop 8) := rfl

@[simp]
theorem encode_int64_length (x : Int) : (encode_int64 x).length = 8 := rfl

theorem take8_enc (x : Int) (r : Bytes) :
    (encode_int64 x ++ r).take 8 = encode_int64 x := by
  rw [show (8 : Nat) = (encode_int64 x).length from rfl]
  simp

theorem drop8_enc (x : Int) (r : Bytes) :
    (encode_int64 x ++ r).drop 8 = r := by
  rw [show (8 : Nat) = (encode_int64 x).length from rfl]
  simp

theorem decode_int64_ok_length {bs : Bytes} {v : Int}
    (h : decode_int64 bs = .ok v) : bs.length = 8 := by
  rcases bs with _ | ⟨b0, _ | ⟨b1, _ | ⟨b2, _ | ⟨b3, _ | ⟨b4, _ | ⟨b5, _ | ⟨b6, _ |
      ⟨b7, _ | ⟨b8, t⟩⟩⟩⟩⟩⟩⟩⟩⟩ <;>
    first
      | rfl
      | simp [decode_int64] at h

theorem decode_int64_shape (bs : Bytes) :
    (∃ v, decode_int64 bs = .ok v) ∨ decode_int64 bs = .error .valueErrorDecodeInt := by
  unfold decode_int64
  split
  · exact Or.inl ⟨_, rfl⟩
  · exact Or.inr rfl

theorem decode_encode_isOk (x : Int) :
    ∃ v, decode_int64 (encode_int64 x) = .ok v := ⟨_, rfl⟩

theorem decode_encode_natCast (n : Nat) (h : n < 2 ^ 63) :
    decode_int64 (encode_int64 (n : Int)) = .ok (n : Int) := by
  have h' : n < 9223372036854775808 := by norm_num at h; exact h
  unfold encode_int64
  rw [if_neg (by omega : ¬ ((n : Int) < 0))]
  simp only [Int.natAbs_ofNat]
  simp only [decode_int64]
  rw [if_neg (by omega : ¬ 128 ≤ n / 72057594037927936 % 128 + 0)]
  congr 1
  omega

theorem pySlice_length (b : Bytes) (i j : Nat) :
    (pySlice b i j).length = min (j - i) (b.length - i) := by
  simp [pySlice]

theorem parse_go_ok_bound :
    ∀ (idxs : List Nat) (bc : Bytes) (ts : List ControlTuple),
      parse_control_go bc idxs = .ok ts → ∀ i ∈ idxs, i + 24 ≤ bc.length := by
  intro idxs
  induction idxs with
  | nil =>
    intro bc ts _ i hi
    simp at hi
  | cons i0 rest ih =>
    intro bc ts h j hj
    rw [parse_control_go] at h
    rcases h1 : decode_int64 (pySlice bc i0 (i0 + 8)) with e | a
    · rw [h1] at h; simp at h
    rw [h1] at h; simp only [ebind_ok] at h
    rcases h2 : decode_int64 (pySlice bc (i0 + 8) (i0 + 16)) with e | b
    · rw [h2] at h; simp at h
    rw [h2] at h; simp only [ebind_ok] at h
    rcases h3 : decode_int64 (pySlice bc (i0 + 16) (i0 + 24)) with e | c
    · rw [h3] at h; simp at h
    rw [h3] at h; simp only [ebind_ok] at h
    rcases h4 : parse_control_go bc rest with e | ts'
    · rw [h4] at h; simp at h
    rw [h4] at h; simp only [ebind_ok] at h
    rcases List.mem_cons.mp hj with rfl | hj'
    · have hlen := decode_int64_ok_length h3
      rw [pySlice_length] at hlen
      omega
    · exact ih bc ts' h4 j hj'

theorem parse_go_shape :
    ∀ (idxs : List Nat) (bc : Bytes),
      (∃ ts, parse_control_go bc idxs = .ok ts) ∨
        parse_control_go bc idxs = .error .valueErrorDecodeInt := by
  intro idxs
  induction idxs with
  | nil => intro bc; exact Or.inl ⟨[], rfl⟩
  | cons i0 rest ih =>
    intro bc
    rw [parse_control_go]
    rcases decode_int64_shape (pySlice bc i0 (i0 + 8)) with ⟨a, ha⟩ | ha
    · rw [ha]; simp only [ebind_ok]
      rcases decode_int64_shape (pySlice bc (i0 + 8) (i0 + 16)) with ⟨b, hb⟩ | hb
      · rw [hb]; simp only [ebind_ok]
        rcases decode_int64_shape (pySlice bc (i0 + 16) (i0 + 24)) with ⟨c, hc⟩ | hc
        · rw [hc]; simp only [ebind_ok]
          rcases ih bc with ⟨ts, hts⟩ | hts
          · rw [hts]; exact Or.inl ⟨_, rfl⟩
          · rw [hts]; exact Or.inr rfl
        · rw [hc]; exact Or.inr rfl
      · rw [hb]; exact Or.inr rfl
    · rw [ha]; exact Or.inr rfl

theorem parse_control_err {bc : Bytes} (h : bc.length % 24 ≠ 0) :
    parse_control bc = .error .valueErrorDecodeInt := by
  unfold parse_control
  rcases parse_go_shape (List.range' 0 ((bc.length + 23) / 24) 24) bc with ⟨ts, hts⟩ | hts
  · exfalso
    have hmem : 24 * (bc.length / 24) ∈ List.range' 0 ((bc.length + 23) / 24) 24 := by
      rw [List.mem_range']
      exact ⟨bc.length / 24, by omega, by omega⟩
    have := parse_go_ok_bound _ bc ts hts _ hmem
    omega
  · exact hts

theorem control_block_aux (l : List ControlTuple) (init : Bytes) :
    l.foldl
        (fun acc c => acc ++ encode_int64 c.1 ++ encode_int64 c.2.1 ++ encode_int64 c.2.2)
        init
      = init ++ control_block l := by
  induction l generalizing init with
  | nil => simp [control_block]
  | cons d l ih =>
    have hstep : control_block (d :: l) =
        (([] : Bytes) ++ encode_int64 d.1 ++ encode_int64 d.2.1 ++ encode_int64 d.2.2)
          ++ control_block l := by
      conv_lhs => rw [control_block]
      rw [List.foldl_cons, ih]
    rw [List.foldl_cons, ih, hstep]
    simp only [List.nil_append, List.append_assoc]

theorem control_block_cons (c : ControlTuple) (tc : List ControlTuple) :
    control_block (c :: tc) =
      encode_int64 c.1 ++ encode_int64 c.2.1 ++ encode_int64 c.2.2 ++ control_block tc := by
  conv_lhs => rw [control_block]
  rw [List.foldl_cons, control_block_aux]
  simp only [List.nil_append, List.append_assoc]

theorem control_block_length (tc : List ControlTuple) :
    (control_block tc).length = 24 * tc.length := by
  induction tc with
  | nil => rfl
  | cons c tc ih =>
    rw [control_block_cons]
    simp [ih]
    omega

@[simp]
theorem decompress_identityFn (br : Bytes → Except PyErr Bytes) (data : Bytes) :
    Decompressor.identityFn.decompress br data = .error .attributeError := rfl

@[simp]
theorem decompress_bz2Class (br : Bytes → Except PyErr Bytes) (data : Bytes) :
    Decompressor.bz2Class.decompress br data = .error .typeError := rfl

@[simp]
theorem decompress_brotliModule (br : Bytes → Except PyErr Bytes) (data : Bytes) :
    Decompressor.brotliModule.decompress br data = br data := rfl

@[simp]
theorem take8_cons8 (a b c d e f g h : Nat) (r : Bytes) :
    (a :: b :: c :: d :: e :: f :: g :: h :: r).take 8 = [a, b, c, d, e, f, g, h] := rfl

@[simp]
theorem drop8_cons8 (a b c d e f g h : Nat) (r : Bytes) :
    (a :: b :: c :: d :: e :: f :: g :: h :: r).drop 8 = r := rfl

/-- `read_patch` spelled out with the sequential stream positions made
explicit; definitionally equal to the definition. -/
theorem read_patch_unfold (br : Bytes → Except PyErr Bytes) (fi : Bytes) (ho : Bool) :
    read_patch br fi ho = (do
      let dds ← dispatch_decompressors (fi.take 8)
      let len_control ← decode_int64 ((fi.drop 8).take 8)
      let len_diff ← decode_int64 (((fi.drop 8).drop 8).take 8)
      let len_dst ← decode_int64 ((((fi.drop 8).drop 8).drop 8).take 8)
      let bcontrol ← dds.1.decompress br
        (pyRead len_control ((((fi.drop 8).drop 8).drop 8).drop 8)).1
      let tcontrol ← parse_control bcontrol
      if ho then
        pure (ReadPatchResult.header len_control len_diff len_dst tcontrol)
      else do
        let bdiff ← dds.2.1.decompress br
          (pyRead len_diff ((pyRead len_control ((((fi.drop 8).drop 8).drop 8).drop 8)).2)).1
        let bextra ← dds.2.2.decompress br
          (pyRead len_diff ((pyRead len_control ((((fi.drop 8).drop 8).drop 8).drop 8)).2)).2
        pure (ReadPatchResult.full len_dst tcontrol bdiff bextra)) := rfl

instance {ε α : Type} [DecidableEq ε] [DecidableEq α] : DecidableEq (Except ε α) := fun a b =>
  match a, b with
  | .ok x, .ok y =>
      if h : x = y then .isTrue (by rw [h]) else .isFalse (by intro hh; cases hh; exact h rfl)
  | .error e, .error f =>
      if h : e = f then .isTrue (by rw [h]) else .isFalse (by intro hh; cases hh; exact h rfl)
  | .ok _, .error _ => .isFalse (fun hh => Except.noConfusion hh)
  | .error _, .ok _ => .isFalse (fun hh => Except.noConfusion hh)

/-- The versioned branch of the dispatch, on a header starting with the 4
checked bytes `"BSDF"` followed by the version byte and the three selector
bytes: each selector is resolved independently, in order. -/
theorem dispatch_versioned (n5 n6 n7 : Nat) :
    dispatch_decompressors [66, 83, 68, 70, 50, n5, n6, n7] = (do
      let t5 ← CompressionType.ofByte n5
      let t6 ← CompressionType.ofByte n6
      let t7 ← CompressionType.ofByte n7
      pure (create_bsdf2_decompressor t5, create_bsdf2_decompressor t6,
            create_bsdf2_decompressor t7)) := rfl

theorem dispatch_legacy {magic : Bytes}
    (h4 : magic.take 4 ≠ BSDF2_MAGIC.take 4)
    (h7 : magic.take 7 = BSDIFF_MAGIC.take 7) :
    dispatch_decompressors magic = .ok (.bz2Class, .bz2Class, .bz2Class) := by
  unfold dispatch_decompressors
  rw [if_neg h4, if_pos h7]
  rfl

theorem dispatch_neither {magic : Bytes}
    (h4 : magic.take 4 ≠ BSDF2_MAGIC.take 4)
    (h7 : magic.take 7 ≠ BSDIFF_MAGIC.take 7) :
    dispatch_decompressors magic = .error .valueErrorNotAPatch := by
  unfold dispatch_decompressors
  rw [if_neg h4, if_neg h7]

theorem ofByte_valid {n : Nat} (h : n < 3) :
    ∃ t, CompressionType.ofByte n = .ok t := by
  rcases n with _ | _ | _ | n
  · exact ⟨_, rfl⟩
  · exact ⟨_, rfl⟩
  · exact ⟨_, rfl⟩
  · omega

theorem ofByte_invalid {n : Nat} (h : ¬ n < 3) :
    CompressionType.ofByte n = .error (.valueErrorBadEnum n) := by
  unfold CompressionType.ofByte
  rw [if_neg (by omega), if_neg (by omega), if_neg (by omega)]

/-! ### Claim theorems -/

/-- C8: `write_patch` serializes exactly the magic header, then the three
8-byte integer-encoded fields compressed-control-length, compressed-diff-length
and `len_dst` in that order, then the compressed control, diff and extra
blocks with no length prefix on the extra block; the pre-compression control
buffer is the tuples flattened in their given order at exactly 24 bytes per
tuple, and no padding bytes are introduced (the total length is exactly
8 + 24 + the three compressed block lengths). -/
theorem c8_write_patch_layout (bz2c : Bytes → Bytes) (len_dst : Int)
    (tcontrol : List ControlTuple) (bdiff bextra : Bytes) :
    write_patch bz2c len_dst tcontrol bdiff bextra =
        BSDIFF_MAGIC
          ++ encode_int64 ((bz2c (control_block tcontrol)).length : Int)
          ++ encode_int64 ((bz2c bdiff).length : Int)
          ++ encode_int64 len_dst
          ++ bz2c (control_block tcontrol) ++ bz2c bdiff ++ bz2c bextra
      ∧ (∀ (c : ControlTuple) (tc : List ControlTuple),
          control_block (c :: tc) =
            encode_int64 c.1 ++ encode_int64 c.2.1 ++ encode_int64 c.2.2
              ++ control_block tc)
      ∧ (control_block tcontrol).length = 24 * tcontrol.length
      ∧ (∀ x : Int, (encode_int64 x).length = 8)
      ∧ (write_patch bz2c len_dst tcontrol bdiff bextra).length =
          32 + (bz2c (control_block tcontrol)).length + (bz2c bdiff).length
            + (bz2c bextra).length := by
  refine ⟨rfl, control_block_cons, control_block_length tcontrol, encode_int64_length, ?_⟩
  simp [write_patch, BSDIFF_MAGIC]
  omega

/-- C4: the compression registry maps `NoCompression` to the identity
function object, but the claim that `read_patch` therefore returns the
channel bytes unchanged is false: `read_patch` invokes `.decompress` on that
function object, which raises `AttributeError`, so the `NoCompression` path
always fails.  The third conjunct evaluates `read_patch` on a well-formed
versioned container whose three channels all select `NoCompression`. -/
theorem c4_nocompression_registry_identity_but_attribute_error :
    create_bsdf2_decompressor CompressionType.NoCompression = Decompressor.identityFn
      ∧ (∀ (br : Bytes → Except PyErr Bytes) (data : Bytes),
          Decompressor.identityFn.decompress br data = .error .attributeError)
      ∧ (∀ br : Bytes → Except PyErr Bytes,
          read_patch br
              ([66, 83, 68, 70, 50, 0, 0, 0]
                ++ encode_int64 0 ++ encode_int64 0 ++ encode_int64 0) false
            = .error .attributeError) :=
  ⟨rfl, fun _ _ => rfl, fun _ => rfl⟩

/-- C2: the registry maps the `BZ2` selector to the `bz2.BZ2Decompressor`
class itself (not an instance), the legacy branch installs the same class
for all three channels, invoking `.decompress` on the class with the channel
bytes raises `TypeError`, and consequently no input dispatched to the legacy
branch is ever parsed successfully. -/
theorem c2_bz2_class_registry_and_legacy_never_parses :
    create_bsdf2_decompressor CompressionType.BZ2 = Decompressor.bz2Class
      ∧ (∀ (br : Bytes → Except PyErr Bytes) (data : Bytes),
          Decompressor.bz2Class.decompress br data = .error .typeError)
      ∧ (∀ (br : Bytes → Except PyErr Bytes) (fi : Bytes) (ho : Bool)
          (r : ReadPatchResult),
          (fi.take 8).take 4 ≠ BSDF2_MAGIC.take 4 →
          (fi.take 8).take 7 = BSDIFF_MAGIC.take 7 →
          read_patch br fi ho ≠ .ok r) := by
  refine ⟨rfl, fun _ _ => rfl, ?_⟩
  intro br fi ho r h4 h7
  rw [read_patch_unfold, dispatch_legacy h4 h7]
  simp only [ebind_ok]
  rcases decode_int64_shape ((fi.drop 8).take 8) with ⟨v1, h1⟩ | h1
  · rw [h1]
    rcases decode_int64_shape (((fi.drop 8).drop 8).take 8) with ⟨v2, h2⟩ | h2
    · rw [h2]
      rcases decode_int64_shape ((((fi.drop 8).drop 8).drop 8).take 8) with ⟨v3, h3⟩ | h3
      · rw [h3]; simp
      · rw [h3]; simp
    · rw [h2]; simp
  · rw [h1]; simp

/-- C2 witness: a concrete legacy container (full `"BSDIFF40"` magic and
well-formed length fields) is not parsed successfully. -/
theorem c2_witness :
    ((([66, 83, 68, 73, 70, 70, 52, 48] : Bytes)
        ++ encode_int64 0 ++ encode_int64 0 ++ encode_int64 0).take 8).take 4
        ≠ BSDF2_MAGIC.take 4
      ∧ ((([66, 83, 68, 73, 70, 70, 52, 48] : Bytes)
          ++ encode_int64 0 ++ encode_int64 0 ++ encode_int64 0).take 8).take 7
          = BSDIFF_MAGIC.take 7
      ∧ read_patch (fun x => .ok x)
          ([66, 83, 68, 73, 70, 70, 52, 48]
            ++ encode_int64 0 ++ encode_int64 0 ++ encode_int64 0) false
          ≠ .ok (.full 0 [] [] []) :=
  ⟨by decide, by decide,
    c2_bz2_class_registry_and_legacy_never_parses.2.2 (fun x => .ok x) _ false
      (.full 0 [] [] []) (by decide) (by decide)⟩

/-- Any container produced by `write_patch` (hence by `diff`) starts with the
legacy magic and fails in `read_patch` with the `TypeError` from calling
`.decompress` on the `BZ2Decompressor` class, whatever the compressor, the
engine output and the brotli behaviour are. -/
theorem read_patch_on_bsdiff_container (br : Bytes → Except PyErr Bytes)
    (x y z : Int) (tail : Bytes) (ho : Bool) :
    read_patch br
        (BSDIFF_MAGIC ++ (encode_int64 x ++ (encode_int64 y ++ (encode_int64 z ++ tail)))) ho
      = .error .typeError := by
  rw [read_patch_unfold]
  simp only [BSDIFF_MAGIC, List.cons_append, List.nil_append, take8_cons8, drop8_cons8,
    take8_enc, drop8_enc]
  rw [dispatch_legacy (by decide) (by decide)]
  simp only [ebind_ok]
  obtain ⟨v1, h1⟩ := decode_encode_isOk x
  rw [h1]
  simp only [ebind_ok]
  obtain ⟨v2, h2⟩ := decode_encode_isOk y
  rw [h2]
  simp only [ebind_ok]
  obtain ⟨v3, h3⟩ := decode_encode_isOk z
  rw [h3]
  simp

/-- C1: the round-trip property fails on this code: for every source and
target, every compressor behaviour, every diff-engine output and every
patch-engine behaviour, `patch src (diff src dst)` raises the `TypeError`
from calling `.decompress` on the `BZ2Decompressor` class (the container
written by `diff` carries the legacy magic, so `read_patch` dispatches to
the legacy branch and fails before the patch engine is ever invoked); it
never returns the target. -/
theorem c1_patch_of_diff_raises_type_error
    (bz2c : Bytes → Bytes)
    (core_diff : Bytes → Bytes → List ControlTuple × Bytes × Bytes)
    (br : Bytes → Except PyErr Bytes)
    (core_patch : Bytes → ReadPatchResult → Except PyErr Bytes)
    (src dst : Bytes) :
    patch br core_patch src (diff bz2c core_diff src dst) = .error .typeError := by
  unfold patch diff write_patch
  simp only [List.append_assoc]
  rw [read_patch_on_bsdiff_container]
  rfl

/-- C5 counterexample: the input `"BSDIFF4X"` matches neither the full
8-byte legacy magic `"BSDIFF40"` nor the 5-byte versioned magic `"BSDF2"`,
yet `read_patch` does not fail with the `Not a BSDIFF4 patch` error: it
dispatches to the legacy branch on the 7-byte prefix and goes on to read the
first 8-byte length field (failing there, since the stream is exhausted,
with the integer decoder's error). -/
theorem c5_counterexample :
    ([66, 83, 68, 73, 70, 70, 52, 88] : Bytes) ≠ BSDIFF_MAGIC
      ∧ ([66, 83, 68, 73, 70, 70, 52, 88] : Bytes).take 5 ≠ BSDF2_MAGIC
      ∧ read_patch (fun x => .ok x) [66, 83, 68, 73, 70, 70, 52, 88] false
          ≠ .error .valueErrorNotAPatch
      ∧ read_patch (fun x => .ok x) [66, 83, 68, 73, 70, 70, 52, 88] false
          = .error .valueErrorDecodeInt :=
  ⟨by decide, by decide, by decide, rfl⟩

/-- C5 amended: `read_patch` compares only the first 4 bytes against the
versioned magic and the first 7 bytes against the legacy magic; an input
matching neither of those two short prefixes fails with
`ValueError("Not a BSDIFF4 patch")`, and does so for every continuation of
the stream, i.e. without reading any of the three 8-byte length fields. -/
theorem c5_amended_short_prefix_dispatch (br : Bytes → Except PyErr Bytes)
    (fi : Bytes) (ho : Bool)
    (h4 : (fi.take 8).take 4 ≠ BSDF2_MAGIC.take 4)
    (h7 : (fi.take 8).take 7 ≠ BSDIFF_MAGIC.take 7) :
    read_patch br fi ho = .error .valueErrorNotAPatch := by
  rw [read_patch_unfold, dispatch_neither h4 h7]
  rfl

/-- C5 witness: a buffer starting with unrelated bytes is rejected with the
`Not a BSDIFF4 patch` error. -/
theorem c5_witness :
    (([1, 2, 3, 4, 5, 6, 7, 8] : Bytes).take 8).take 4 ≠ BSDF2_MAGIC.take 4
      ∧ (([1, 2, 3, 4, 5, 6, 7, 8] : Bytes).take 8).take 7 ≠ BSDIFF_MAGIC.take 7
      ∧ read_patch (fun x => .ok x) [1, 2, 3, 4, 5, 6, 7, 8] false
          = .error .valueErrorNotAPatch :=
  ⟨by decide, by decide,
    c5_amended_short_prefix_dispatch (fun x => .ok x) [1, 2, 3, 4, 5, 6, 7, 8] false
      (by decide) (by decide)⟩

/-- C6: a versioned header whose control, diff or extra selector byte is
outside `{0, 1, 2}` makes `read_patch` fail with the enum constructor's
`ValueError` for that byte; it never falls back to the no-op codec. -/
theorem c6_unsupported_selector_raises (br : Bytes → Except PyErr Bytes)
    (n5 n6 n7 : Nat) (rest : Bytes) (ho : Bool)
    (h : ¬ (n5 < 3 ∧ n6 < 3 ∧ n7 < 3)) :
    isBadEnumError (read_patch br ([66, 83, 68, 70, 50, n5, n6, n7] ++ rest) ho) = true := by
  rw [read_patch_unfold]
  simp only [List.cons_append, List.nil_append, take8_cons8, drop8_cons8]
  rw [dispatch_versioned]
  by_cases hn5 : n5 < 3
  · obtain ⟨t5, ht5⟩ := ofByte_valid hn5
    rw [ht5]
    simp only [ebind_ok]
    by_cases hn6 : n6 < 3
    · obtain ⟨t6, ht6⟩ := ofByte_valid hn6
      rw [ht6]
      simp only [ebind_ok]
      by_cases hn7 : n7 < 3
      · exact absurd ⟨hn5, hn6, hn7⟩ h
      · rw [ofByte_invalid hn7]
        rfl
    · rw [ofByte_invalid hn6]
      rfl
  · rw [ofByte_invalid hn5]
    rfl

/-- C6 witness: selector byte 9 in the control slot is rejected with the
enum `ValueError`. -/
theorem c6_witness :
    ¬ ((9 : Nat) < 3 ∧ (0 : Nat) < 3 ∧ (0 : Nat) < 3)
      ∧ isBadEnumError
          (read_patch (fun x => .ok x)
            ([66, 83, 68, 70, 50, 9, 0, 0] ++ encode_int64 0) false) = true :=
  ⟨by decide,
    c6_unsupported_selector_raises (fun x => .ok x) 9 0 0 (encode_int64 0) false (by decide)⟩

/-- C7: on read, `read_patch` dispatches on the 8-byte header prefix: a
header carrying the versioned magic resolves bytes 5, 6 and 7 independently
through the enum and the registry as the control, diff and extra
decompressors; a header equal to the legacy magic installs the registry's
`BZ2` entry (the `BZ2Decompressor` class) for all three channels; and any
dispatch error on the first 8 bytes of the stream is the result of
`read_patch`. -/
theorem c7_dispatch_selectors_and_legacy :
    (∀ (n5 n6 n7 : Nat) (t5 t6 t7 : CompressionType),
        CompressionType.ofByte n5 = .ok t5 →
        CompressionType.ofByte n6 = .ok t6 →
        CompressionType.ofByte n7 = .ok t7 →
        dispatch_decompressors [66, 83, 68, 70, 50, n5, n6, n7] =
          .ok (create_bsdf2_decompressor t5, create_bsdf2_decompressor t6,
               create_bsdf2_decompressor t7))
      ∧ dispatch_decompressors BSDIFF_MAGIC = .ok (.bz2Class, .bz2Class, .bz2Class)
      ∧ create_bsdf2_decompressor CompressionType.BZ2 = .bz2Class
      ∧ (∀ (br : Bytes → Except PyErr Bytes) (fi : Bytes) (ho : Bool) (e : PyErr),
          dispatch_decompressors (fi.take 8) = .error e →
          read_patch br fi ho = .error e) := by
  refine ⟨?_, rfl, rfl, ?_⟩
  · intro n5 n6 n7 t5 t6 t7 h5 h6 h7
    rw [dispatch_versioned, h5]
    simp only [ebind_ok]
    rw [h6]
    simp only [ebind_ok]
    rw [h7]
    rfl
  · intro br fi ho e h
    rw [read_patch_unfold, h]
    rfl

/-- C7 witness: selectors `0, 1, 2` resolve to the identity-function object,
the `BZ2Decompressor` class and the brotli module respectively, and a
dispatch failure is returned by `read_patch` unchanged. -/
theorem c7_witness :
    dispatch_decompressors [66, 83, 68, 70, 50, 0, 1, 2] =
        .ok (Decompressor.identityFn, Decompressor.bz2Class, Decompressor.brotliModule)
      ∧ read_patch (fun x => .ok x) [9, 9, 9] false = .error .valueErrorNotAPatch :=
  ⟨c7_dispatch_selectors_and_legacy.1 0 1 2 _ _ _ rfl rfl rfl,
    c7_dispatch_selectors_and_legacy.2.2.2 (fun x => .ok x) [9, 9, 9] false _ rfl⟩

/-- C3 counterexample: a versioned container whose control channel
decompresses (through the brotli parameter) to a 25-byte block — not a
multiple of 24 — does not fail with a dedicated control-stream truncation
error: `read_patch` has no multiple-of-24 check, and the failure it reports
is the integer decoder's `ValueError("8 bytes expected")` raised on the
trailing 1-byte slice. -/
theorem c3_counterexample :
    (Except.ok (List.replicate 25 0) : Except PyErr Bytes) = .ok (List.replicate 25 0)
      ∧ (List.replicate 25 (0 : Nat)).length % 24 ≠ 0
      ∧ read_patch (fun _ => .ok (List.replicate 25 0))
          ([66, 83, 68, 70, 50, 2, 2, 2] ++ encode_int64 1 ++ encode_int64 0
            ++ encode_int64 0 ++ [9]) false
          = .error .valueErrorDecodeInt :=
  ⟨rfl, by decide, by decide⟩

/-- C3 amended: `read_patch` performs no multiple-of-24 check on the
decompressed control block; when the block's length is not a multiple of 24
the tuple comprehension slices a partial trailing group and the parse fails
with the integer codec's `ValueError("8 bytes expected")` (raised by
`core.decode_int64` on a slice shorter than 8 bytes), not with a dedicated
control-stream truncation error; it never silently misparses. -/
theorem c3_amended_short_group_decode_error :
    (∀ bc : Bytes, bc.length % 24 ≠ 0 → parse_control bc = .error .valueErrorDecodeInt)
      ∧ (∀ (br : Bytes → Except PyErr Bytes) (lc : Nat) (body bc : Bytes) (ho : Bool),
          lc < 2 ^ 63 →
          br (body.take lc) = .ok bc →
          bc.length % 24 ≠ 0 →
          read_patch br
              ([66, 83, 68, 70, 50, 2, 2, 2] ++ encode_int64 (lc : Int)
                ++ encode_int64 0 ++ encode_int64 0 ++ body) ho
            = .error .valueErrorDecodeInt) := by
  constructor
  · intro bc h
    exact parse_control_err h
  · intro br lc body bc ho hlc hbr hmod
    rw [read_patch_unfold]
    simp only [List.cons_append, List.nil_append, List.append_assoc, take8_cons8,
      drop8_cons8, take8_enc, drop8_enc]
    rw [show dispatch_decompressors [66, 83, 68, 70, 50, 2, 2, 2]
        = .ok (.brotliModule, .brotliModule, .brotliModule) from rfl]
    simp only [ebind_ok]
    rw [decode_encode_natCast lc hlc]
    simp only [ebind_ok]
    rw [show decode_int64 (encode_int64 (0 : Int)) = .ok 0 from rfl]
    simp only [ebind_ok, decompress_brotliModule, pyRead_natCast]
    rw [hbr]
    simp only [ebind_ok]
    rw [parse_control_err hmod]
    rfl

/-- C3 witness: the 25-byte control block fails through `parse_control` and
through a full `read_patch` run. -/
theorem c3_witness :
    (25 : Nat) % 24 ≠ 0
      ∧ parse_control (List.replicate 25 0) = .error .valueErrorDecodeInt
      ∧ read_patch (fun _ => .ok (List.replicate 25 0))
          ([66, 83, 68, 70, 50, 2, 2, 2] ++ encode_int64 ((1 : Nat) : Int)
            ++ encode_int64 0 ++ encode_int64 0 ++ [9]) false
          = .error .valueErrorDecodeInt := by
  refine ⟨by decide, ?_, ?_⟩
  · exact c3_amended_short_group_decode_error.1 (List.replicate 25 0) (by decide)
  · exact c3_amended_short_group_decode_error.2 (fun _ => .ok (List.replicate 25 0)) 1 [9]
      (List.replicate 25 0) false (by norm_num) rfl (by decide)

/-- C9 counterexample: a versioned container declaring `lenControl = 100`
over a stream that ends after only 3 more bytes does not fail with a
container-truncation error: `read_patch` reads the 3 available bytes without
any availability check and fails for an unrelated reason (here the
`AttributeError` of the `NoCompression` channel). -/
theorem c9_counterexample :
    (([66, 83, 68, 70, 50, 0, 0, 0] ++ encode_int64 100 ++ encode_int64 0
        ++ encode_int64 0 ++ [1, 2, 3] : Bytes).drop 32).length = 3
      ∧ decode_int64 ((([66, 83, 68, 70, 50, 0, 0, 0] ++ encode_int64 100 ++ encode_int64 0
          ++ encode_int64 0 ++ [1, 2, 3] : Bytes).drop 8).take 8) = .ok 100
      ∧ read_patch (fun x => .ok x)
          ([66, 83, 68, 70, 50, 0, 0, 0] ++ encode_int64 100 ++ encode_int64 0
            ++ encode_int64 0 ++ [1, 2, 3]) false
          = .error .attributeError :=
  ⟨by decide, by decide, by decide⟩

/-- C9 amended: `read_patch` performs no check that the declared `lenControl`
(or `lenDiff`) bytes are actually available; the bytes that could be read are
passed to the channel decompressor as they are, and if the decompressor
accepts them the truncated container even parses successfully: here the
stream ends 97 bytes before the declared 100-byte control block, yet the
parse returns a full result. -/
theorem c9_amended_no_truncation_check (br : Bytes → Except PyErr Bytes)
    (bc : Bytes) (tc : List ControlTuple) (v : Bytes)
    (h1 : br [1, 2, 3] = .ok bc)
    (h2 : parse_control bc = .ok tc)
    (h3 : br [] = .ok v) :
    read_patch br
        ([66, 83, 68, 70, 50, 2, 2, 2] ++ encode_int64 100 ++ encode_int64 0
          ++ encode_int64 0 ++ [1, 2, 3]) false
      = .ok (.full 0 tc v v) := by
  rw [read_patch_unfold]
  simp only [List.cons_append, List.nil_append, List.append_assoc, take8_cons8,
    drop8_cons8, take8_enc, drop8_enc]
  rw [show dispatch_decompressors [66, 83, 68, 70, 50, 2, 2, 2]
      = .ok (.brotliModule, .brotliModule, .brotliModule) from rfl]
  simp only [ebind_ok]
  rw [show decode_int64 (encode_int64 (100 : Int)) = .ok 100 from rfl]
  simp only [ebind_ok]
  rw [show decode_int64 (encode_int64 (0 : Int)) = .ok 0 from rfl]
  simp only [ebind_ok, decompress_brotliModule]
  rw [show pyRead (100 : Int) [1, 2, 3] = ([1, 2, 3], []) from rfl]
  dsimp only []
  rw [h1]
  simp only [ebind_ok]
  rw [h2]
  simp only [ebind_ok]
  rw [if_neg (by decide : ¬ (false = true))]
  rw [show pyRead (0 : Int) ([] : Bytes) = ([], []) from rfl]
  dsimp only []
  rw [h3]
  simp only [ebind_ok]
  rfl

/-- C9 witness: a concrete brotli behaviour accepting the 3-byte remainder
turns the truncated container into a successful full parse. -/
theorem c9_amended_witness :
    read_patch (fun b => if b.length = 3 then .ok (List.replicate 24 0) else .ok [])
        ([66, 83, 68, 70, 50, 2, 2, 2] ++ encode_int64 100 ++ encode_int64 0
          ++ encode_int64 0 ++ [1, 2, 3]) false
      = .ok (.full 0 [(0, 0, 0)] [] []) :=
  c9_amended_no_truncation_check
    (fun b => if b.length = 3 then .ok (List.replicate 24 0) else .ok [])
    (List.replicate 24 0) [(0, 0, 0)] [] rfl rfl rfl

/-- C10: whenever a full deserialization of a container succeeds, the
header-only deserialization of the same container succeeds as well and
reports the same `len_dst` (`lenTarget`) and the same control tuples. -/
theorem c10_header_only_agrees (br : Bytes → Except PyErr Bytes) (fi : Bytes)
    (h : exceptIsOk (read_patch br fi false) = true) :
    headerView (read_patch br fi true) = fullView (read_patch br fi false) := by
  rw [read_patch_unfold br fi true, read_patch_unfold br fi false]
  rw [read_patch_unfold br fi false] at h
  rcases hd : dispatch_decompressors (fi.take 8) with e | dds
  · rw [hd] at h
    simp [exceptIsOk] at h
  rw [hd] at h
  simp only [ebind_ok] at h ⊢
  obtain ⟨cd, dd, ed⟩ := dds
  dsimp only [] at h ⊢
  rcases h1 : decode_int64 ((fi.drop 8).take 8) with e | v1
  · rw [h1] at h
    simp [exceptIsOk] at h
  rw [h1] at h
  simp only [ebind_ok] at h ⊢
  rcases h2 : decode_int64 (((fi.drop 8).drop 8).take 8) with e | v2
  · rw [h2] at h
    simp [exceptIsOk] at h
  rw [h2] at h
  simp only [ebind_ok] at h ⊢
  rcases h3 : decode_int64 ((((fi.drop 8).drop 8).drop 8).take 8) with e | v3
  · rw [h3] at h
    simp [exceptIsOk] at h
  rw [h3] at h
  simp only [ebind_ok] at h ⊢
  rcases h4 : cd.decompress br (pyRead v1 ((((fi.drop 8).drop 8).drop 8).drop 8)).1 with e | bc
  · rw [h4] at h
    simp [exceptIsOk] at h
  rw [h4] at h
  simp only [ebind_ok] at h ⊢
  rcases h5 : parse_control bc with e | tc
  · rw [h5] at h
    simp [exceptIsOk] at h
  rw [h5] at h
  simp only [ebind_ok] at h ⊢
  rcases h6 : dd.decompress br
      (pyRead v2 ((pyRead v1 ((((fi.drop 8).drop 8).drop 8).drop 8)).2)).1 with e | bd
  · rw [h6] at h
    simp [exceptIsOk] at h
  rw [h6] at h
  rcases h7 : ed.decompress br
      (pyRead v2 ((pyRead v1 ((((fi.drop 8).drop 8).drop 8).drop 8)).2)).2 with e | be
  · rw [h7] at h
    simp [exceptIsOk] at h
  simp [headerView, fullView, pure, Except.pure]

/-- C10 witness: a concrete container that fully parses (selectors all
Brotli, the brotli parameter instantiated with the identity) reports the
same target length and control tuples in header-only and in full mode. -/
theorem c10_witness :
    exceptIsOk (read_patch (fun x => .ok x)
        ([66, 83, 68, 70, 50, 2, 2, 2] ++ encode_int64 24 ++ encode_int64 1 ++ encode_int64 7
          ++ List.replicate 24 0 ++ [5] ++ [6, 6]) false) = true
      ∧ headerView (read_patch (fun x => .ok x)
            ([66, 83, 68, 70, 50, 2, 2, 2] ++ encode_int64 24 ++ encode_int64 1
              ++ encode_int64 7 ++ List.replicate 24 0 ++ [5] ++ [6, 6]) true)
          = fullView (read_patch (fun x => .ok x)
              ([66, 83, 68, 70, 50, 2, 2, 2] ++ encode_int64 24 ++ encode_int64 1
                ++ encode_int64 7 ++ List.replicate 24 0 ++ [5] ++ [6, 6]) false) :=
  ⟨rfl,
    c10_header_only_agrees (fun x => .ok x)
      ([66, 83, 68, 70, 50, 2, 2, 2] ++ encode_int64 24 ++ encode_int64 1
        ++ encode_int64 7 ++ List.replicate 24 0 ++ [5] ++ [6, 6]) rfl⟩

end Bsdiff4
